import Mathlib

/-!
Shallow embedding of the minio donut driver facade
(pkg/api/resources.go: query parsing plus the donutDriver methods)
and of the disk layer (pkg/storage/donut/disk/disk.go), together with
theorems checking the natural-language specification against it.

Machine integers of the source (int, int64) are modelled as Lean Int;
byte streams as List Nat; the lower donut layer (not part of the two
source files) is modelled as a record of response functions, so facade
behaviour is stated for every possible lower-layer response.
-/

namespace Minio

/-- The whitespace set of Go strings.TrimSpace, restricted to the
Latin-1 space characters (the full Unicode space category is elided;
no claim depends on exotic whitespace). -/
def isSpaceChar (c : Char) : Bool :=
  c = ' ' || c = '\t' || c = '\n' || c = '\r' ||
  c = Char.ofNat 11 || c = Char.ofNat 12 || c = Char.ofNat 0x85 || c = Char.ofNat 0xA0

/-- Go strings.TrimSpace: drop leading and trailing whitespace. -/
def trimSpace (s : String) : String :=
  ⟨((s.data.dropWhile isSpaceChar).reverse.dropWhile isSpaceChar).reverse⟩

/-- Go strings.Contains specialized to a one-character substring (its
only use in the source is Contains(bucketName, ".")). -/
def containsChar (s : String) (c : Char) : Bool := s.data.any (fun x => x = c)

/-- Decimal digit test. -/
def isDigitChar (c : Char) : Bool := '0' ≤ c && c ≤ '9'

/-- Syntactic well-formedness of an integer literal as accepted by Go
strconv.Atoi: an optional sign followed by one or more decimal digits. -/
def isIntSyntax (s : String) : Bool :=
  let cs := s.data
  let ds := if cs.head? = some '+' ∨ cs.head? = some '-' then cs.tail else cs
  !ds.isEmpty && ds.all isDigitChar

/-- Value of a digit string. -/
def parseDigits (ds : List Char) : Nat :=
  ds.foldl (fun a c => a * 10 + (c.toNat - 48)) 0

/-- Go strconv.Atoi: returns the parsed value and an error flag.
A syntax error yields (0, true); an out-of-range literal yields the
clamped int64 bound and true; otherwise the value and false. -/
def goAtoi (s : String) : Int × Bool :=
  if isIntSyntax s then
    let cs := s.data
    let neg := cs.head? = some '-'
    let ds := if cs.head? = some '+' ∨ cs.head? = some '-' then cs.tail else cs
    let v : Int := if neg then -(parseDigits ds : Int) else (parseDigits ds : Int)
    if v > 2 ^ 63 - 1 then (2 ^ 63 - 1, true)
    else if v < -(2 ^ 63) then (-(2 ^ 63), true)
    else (v, false)
  else (0, true)

/-- drivers.BucketResourcesMetadata, the parsed bucket-listing query.
The field called Prefix in the Go source is named prefixStr here. -/
structure BucketResourcesMetadata where
  prefixStr : String := ""
  Marker : String := ""
  Maxkeys : Int := 0
  Delimiter : String := ""
  EncodingType : String := ""
  CommonPrefixes : List String := []
  IsTruncated : Bool := false
  NextMarker : String := ""
deriving DecidableEq

/-- drivers.ObjectResourcesMetadata, the parsed object-parts query. -/
structure ObjectResourcesMetadata where
  UploadID : String := ""
  PartNumberMarker : Int := 0
  MaxParts : Int := 0
  EncodingType : String := ""
deriving DecidableEq

/-- One step of the getBucketResources loop: dispatch one query key.
url.Values is a Go map, so the loop body runs once per key; an entry
here is a key together with its first value (value[0]). -/
def applyBucketQuery (v : BucketResourcesMetadata) (kv : String × String) :
    BucketResourcesMetadata :=
  if kv.1 = "prefix" then { v with prefixStr := kv.2 }
  else if kv.1 = "marker" then { v with Marker := kv.2 }
  else if kv.1 = "max-keys" then { v with Maxkeys := (goAtoi kv.2).1 }
  else if kv.1 = "delimiter" then { v with Delimiter := kv.2 }
  else if kv.1 = "encoding-type" then { v with EncodingType := kv.2 }
  else v

/-- getBucketResources: parse bucket url queries. The Atoi error for
max-keys is discarded by the source; the return type carries no error. -/
def getBucketResources (values : List (String × String)) : BucketResourcesMetadata :=
  values.foldl applyBucketQuery {}

/-- One step of the getObjectResources loop. -/
def applyObjectQuery (v : ObjectResourcesMetadata) (kv : String × String) :
    ObjectResourcesMetadata :=
  if kv.1 = "uploadId" then { v with UploadID := kv.2 }
  else if kv.1 = "part-number-marker" then { v with PartNumberMarker := (goAtoi kv.2).1 }
  else if kv.1 = "max-parts" then { v with MaxParts := (goAtoi kv.2).1 }
  else if kv.1 = "encoding-type" then { v with EncodingType := kv.2 }
  else v

/-- getObjectResources: parse object url queries; Atoi errors for
part-number-marker and max-parts are discarded. -/
def getObjectResources (values : List (String × String)) : ObjectResourcesMetadata :=
  values.foldl applyObjectQuery {}

/-- isRequestBucketACL: the source iterates the query map and, on the
very first key, returns true when that key is acl and false otherwise
(the switch default returns false inside the loop). The argument is
the sequence of keys in map-iteration order. -/
def isRequestBucketACL (keys : List String) : Bool :=
  match keys with
  | [] => false
  | k :: _ => k = "acl"

/-- Index of a character in the standard base64 alphabet, as used by
Go encoding/base64 StdEncoding. -/
def b64Index (c : Char) : Option Nat :=
  if 'A' ≤ c ∧ c ≤ 'Z' then some (c.toNat - 65)
  else if 'a' ≤ c ∧ c ≤ 'z' then some (c.toNat - 71)
  else if '0' ≤ c ∧ c ≤ '9' then some (c.toNat + 4)
  else if c = '+' then some 62
  else if c = '/' then some 63
  else none

/-- Decode base64 symbols in groups of four, with the StdEncoding
padding rules: the total length is a multiple of four, and = padding
may only close the final quadruple (one or two pads). -/
def b64DecodeGroups : List Char → Option (List Nat)
  | [] => some []
  | a :: b :: c :: d :: rest =>
    match b64Index a, b64Index b with
    | some x, some y =>
      if c = '=' then
        if d = '=' ∧ rest = [] then some [x * 4 + y / 16] else none
      else
        match b64Index c with
        | some z =>
          if d = '=' then
            if rest = [] then some [x * 4 + y / 16, (y % 16) * 16 + z / 4] else none
          else
            match b64Index d with
            | some w =>
              (b64DecodeGroups rest).map
                (fun tl => (x * 4 + y / 16) :: ((y % 16) * 16 + z / 4) :: ((z % 4) * 64 + w) :: tl)
            | none => none
        | none => none
    | _, _ => none
  | _ => none

/-- Go base64.StdEncoding.DecodeString: carriage returns and newlines
are ignored, everything else must be alphabet symbols in padded
quadruples. Returns none on a CorruptInputError. -/
def base64Decode (s : String) : Option (List Nat) :=
  b64DecodeGroups (s.data.filter (fun c => c ≠ '\r' ∧ c ≠ '\n'))

/-- The lowercase hex alphabet of Go encoding/hex. -/
def hexTable : List Char := "0123456789abcdef".data

/-- One hex digit (argument taken mod 16; bytes are below 256 so both
nibbles are below 16). -/
def hexDigit (n : Nat) : Char := hexTable.getD (n % 16) '0'

/-- The character sequence of the hex encoding. -/
def hexChars (bs : List Nat) : List Char :=
  bs.foldr (fun b acc => hexDigit (b / 16) :: hexDigit b :: acc) []

/-- Go hex.EncodeToString: two lowercase hex digits per byte. -/
def hexEncode (bs : List Nat) : String :=
  ⟨hexChars bs⟩

/-- Decidable equality for Except results, so concrete runs of the
facade can be settled by decide. -/
instance {ε α : Type} [DecidableEq ε] [DecidableEq α] : DecidableEq (Except ε α) :=
  fun x y =>
    match x, y with
    | .error a, .error b =>
      if h : a = b then .isTrue (by rw [h])
      else .isFalse (by intro hc; injection hc; exact h (by assumption))
    | .error _, .ok _ => .isFalse (by intro hc; exact Except.noConfusion hc)
    | .ok _, .error _ => .isFalse (by intro hc; exact Except.noConfusion hc)
    | .ok a, .ok b =>
      if h : a = b then .isTrue (by rw [h])
      else .isFalse (by intro hc; injection hc; exact h (by assumption))

/-- Errors of the lower donut layer as observed by the driver facade. -/
inductive DonutError where
  | bucketExists
  | badDigest
  | other (msg : String)
deriving DecidableEq

/-- The drivers error taxonomy raised by the facade (pkg/storage/drivers
error types; iodine wrapping only attaches context and is dropped). -/
inductive DriverError where
  | internalError
  | bucketNameInvalid (bucket : String)
  | invalidACL (acl : String)
  | bucketExistsErr (bucket : String)
  | bucketNotFound (bucket : String)
  | objectNameInvalid (obj : String)
  | objectNotFound (bucket obj : String)
  | invalidRange (start length : Int)
  | corruptBase64
  | ioEOF
  | donutError (e : DonutError)
deriving DecidableEq

/-- drivers.BucketMetadata. Creation times are abstract tick counts. -/
structure BucketMetadata where
  Name : String := ""
  Created : Nat := 0
  ACL : String := ""
deriving DecidableEq

/-- drivers.ObjectMetadata. -/
structure ObjectMetadata where
  Bucket : String := ""
  Key : String := ""
  ContentType : String := ""
  Created : Nat := 0
  Md5 : String := ""
  Size : Int := 0
deriving DecidableEq

/-- Bucket metadata as returned by the lower donut layer. -/
structure DonutBucketMetadata where
  Created : Nat := 0
  ACL : String := ""
deriving DecidableEq

/-- Object metadata as returned by the lower donut layer. -/
structure DonutObjectMetadata where
  Created : Nat := 0
  MD5Sum : String := ""
  Size : Int := 0
  Metadata : List (String × String) := []
deriving DecidableEq

/-- Modelled from the spec: drivers.IsValidBucket is not among the
source files; the spec describes the bucket validity predicate as
lowercase letters, digits and hyphens, 3 to 63 characters (dots are
additionally excluded by an explicit Contains check in the facade,
kept separate here exactly as in the source). -/
def isValidBucket (s : String) : Bool :=
  3 ≤ s.length && s.length ≤ 63 && s.data.all (fun c => c.isLower || c.isDigit || c = '-')

/-- Modelled from the spec: drivers.IsValidObjectName is not among the
source files; the spec constrains keys only to be UTF-8 (automatic for
Lean strings) with non-blankness enforced separately by the facade via
TrimSpace, exactly as the source does. The predicate itself is
therefore trivially true. -/
def isValidObjectName (_ : String) : Bool := true

/-- Modelled from the spec: drivers.IsValidBucketACL is not among the
source files; the spec enumerates the ACLs as exactly private,
public-read, public-read-write and authenticated-read, with the empty
string accepted and defaulted to private. -/
def isValidBucketACL (acl : String) : Bool :=
  acl = "private" || acl = "public-read" || acl = "public-read-write" ||
  acl = "authenticated-read" || acl = ""

/-- Modelled from the spec: BucketResourcesMetadata.IsDelimiterSet is
not among the source files; a delimiter is set when it is non-empty. -/
def isDelimiterSet (r : BucketResourcesMetadata) : Bool := r.Delimiter ≠ ""

/-- The lower donut layer (pkg/storage/donut, not among the source
files) as a record of response functions: the facade is specified for
every possible lower-layer behaviour. putObject receives the expected
MD5 (already normalized by the facade) and the metadata map as an
association list in insertion order. -/
structure DonutStore where
  listBucketsLower : Except DonutError (List (String × DonutBucketMetadata))
  makeBucket : String → String → Except DonutError Unit
  getBucketMetadataLower : String → Except DonutError DonutBucketMetadata
  setBucketMetadataLower : String → List (String × String) → Except DonutError Unit
  getObjectLower : String → String → Except DonutError (List Nat × Int)
  getObjectMetadataLower : String → String → Except DonutError DonutObjectMetadata
  listObjectsLower : String → String → String → String → Int →
    Except DonutError (List String × List String × Bool)
  putObject : String → String → String → List (String × String) → Except DonutError String

/-- io.CopyN src n: returns the bytes written, the rest of the reader
and an error flag which is set exactly when the reader ran out before
n bytes were copied; n at most zero copies nothing and is no error. -/
def copyN (src : List Nat) (n : Int) : List Nat × List Nat × Bool :=
  if n ≤ 0 then ([], src, false)
  else
    let k := n.toNat
    let w := src.take k
    (w, src.drop k, decide (w.length < k))

/-- Outcome of a Go call that may also panic (used for ListObjects,
whose NextMarker computation indexes a slice). -/
inductive GoResult (α : Type) where
  | panicked
  | errored (e : DriverError)
  | ok (a : α)
deriving DecidableEq

/-- donutDriver.ListBuckets: list the lower map in iteration order,
keep name and creation time, sort ascending by name. -/
def ListBuckets (store : DonutStore) : Except DriverError (List BucketMetadata) :=
  match store.listBucketsLower with
  | .error e => .error (.donutError e)
  | .ok buckets =>
    .ok (List.insertionSort (fun a b : BucketMetadata => a.Name ≤ b.Name)
      (buckets.map (fun p => { Name := p.1, Created := p.2.Created })))

/-- donutDriver.CreateBucket: ACL validity first, then bucket name
validity plus the explicit dot exclusion, then the lower MakeBucket
with its BucketExists translation. -/
def CreateBucket (store : DonutStore) (bucketName acl : String) :
    Except DriverError Unit :=
  if ¬ isValidBucketACL acl then .error (.invalidACL acl)
  else if isValidBucket bucketName ∧ ¬ containsChar bucketName '.' then
    let acl2 := if trimSpace acl = "" then "private" else acl
    match store.makeBucket bucketName acl2 with
    | .error .bucketExists => .error (.bucketExistsErr bucketName)
    | .error e => .error (.donutError e)
    | .ok _ => .ok ()
  else .error (.bucketNameInvalid bucketName)

/-- donutDriver.GetBucketMetadata. -/
def GetBucketMetadata (store : DonutStore) (bucketName : String) :
    Except DriverError BucketMetadata :=
  if ¬ isValidBucket bucketName ∨ containsChar bucketName '.' then
    .error (.bucketNameInvalid bucketName)
  else
    match store.getBucketMetadataLower bucketName with
    | .error _ => .error (.bucketNotFound bucketName)
    | .ok m => .ok { Name := bucketName, Created := m.Created, ACL := m.ACL }

/-- donutDriver.SetBucketMetadata. -/
def SetBucketMetadata (store : DonutStore) (bucketName acl : String) :
    Except DriverError Unit :=
  if ¬ isValidBucket bucketName ∨ containsChar bucketName '.' then
    .error (.bucketNameInvalid bucketName)
  else
    let acl2 := if trimSpace acl = "" then "private" else acl
    match store.setBucketMetadataLower bucketName [("acl", acl2)] with
    | .error _ => .error (.bucketNotFound bucketName)
    | .ok _ => .ok ()

/-- donutDriver.GetObject: name checks, lower fetch (failure becomes
ObjectNotFound), then CopyN of the declared size to the sink; the
bytes written are returned. -/
def GetObject (store : DonutStore) (bucketName objectName : String) :
    Except DriverError (List Nat) :=
  if ¬ isValidBucket bucketName ∨ containsChar bucketName '.' then
    .error (.bucketNameInvalid bucketName)
  else if ¬ isValidObjectName objectName ∨ trimSpace objectName = "" then
    .error (.objectNameInvalid objectName)
  else
    match store.getObjectLower bucketName objectName with
    | .error _ => .error (.objectNotFound bucketName objectName)
    | .ok (data, size) =>
      let r := copyN data size
      if r.2.2 then .error .ioEOF else .ok r.1

/-- Go int64 arithmetic wraps on overflow: reduce an unbounded integer
to the int64 value a Go computation would produce. -/
def wrapInt64 (n : Int) : Int := (n + 2 ^ 63) % 2 ^ 64 - 2 ^ 63

/-- donutDriver.GetPartialObject: name checks, the negative-start check
before the lower fetch, the start and end range checks after it, then
a discarding CopyN of start bytes followed by a CopyN of length bytes
to the sink. The sum start + length - 1 of the end check is computed
in wrapping int64 arithmetic, as the Go source does. -/
def GetPartialObject (store : DonutStore) (bucketName objectName : String)
    (start length : Int) : Except DriverError (List Nat) :=
  if ¬ isValidBucket bucketName ∨ containsChar bucketName '.' then
    .error (.bucketNameInvalid bucketName)
  else if ¬ isValidObjectName objectName ∨ trimSpace objectName = "" then
    .error (.objectNameInvalid objectName)
  else if start < 0 then .error (.invalidRange start length)
  else
    match store.getObjectLower bucketName objectName with
    | .error _ => .error (.objectNotFound bucketName objectName)
    | .ok (data, size) =>
      if start > size ∨ wrapInt64 (start + length - 1) > size then
        .error (.invalidRange start length)
      else
        let d := copyN data start
        if d.2.2 then .error .ioEOF
        else
          let r := copyN d.2.1 length
          if r.2.2 then .error .ioEOF else .ok r.1

/-- donutDriver.GetObjectMetadata. -/
def GetObjectMetadata (store : DonutStore) (bucketName objectName : String) :
    Except DriverError ObjectMetadata :=
  if ¬ isValidBucket bucketName ∨ containsChar bucketName '.' then
    .error (.bucketNameInvalid bucketName)
  else if ¬ isValidObjectName objectName ∨ trimSpace objectName = "" then
    .error (.objectNameInvalid objectName)
  else
    match store.getObjectMetadataLower bucketName objectName with
    | .error _ => .error (.objectNotFound bucketName objectName)
    | .ok m =>
      .ok { Bucket := bucketName, Key := objectName,
            ContentType := ((m.Metadata.lookup "contentType").getD ""),
            Created := m.Created, Md5 := m.MD5Sum, Size := m.Size }

/-- The per-key metadata loop of ListObjects: fetch lower metadata for
every emitted key, aborting on the first failure; each record keeps
the key, creation time and size only. -/
def fetchObjectRecords (store : DonutStore) (bucketName : String) :
    List String → Except DonutError (List ObjectMetadata)
  | [] => .ok []
  | objectName :: rest =>
    match store.getObjectMetadataLower bucketName objectName with
    | .error e => .error e
    | .ok m =>
      match fetchObjectRecords store bucketName rest with
      | .error e => .error e
      | .ok tl => .ok ({ Key := objectName, Created := m.Created, Size := m.Size } :: tl)

/-- donutDriver.ListObjects: name and prefix checks, lower listing,
NextMarker computation (which indexes the last element of the key list
and panics on an empty list), the metadata loop, and a final sort by
key. -/
def ListObjects (store : DonutStore) (bucketName : String)
    (resources : BucketResourcesMetadata) :
    GoResult (List ObjectMetadata × BucketResourcesMetadata) :=
  if ¬ isValidBucket bucketName ∨ containsChar bucketName '.' then
    .errored (.bucketNameInvalid bucketName)
  else if ¬ isValidObjectName resources.prefixStr then
    .errored (.objectNameInvalid resources.prefixStr)
  else
    match store.listObjectsLower bucketName resources.prefixStr resources.Marker
        resources.Delimiter resources.Maxkeys with
    | .error e => .errored (.donutError e)
    | .ok (actualObjects, commonPrefixes, isTruncated) =>
      let res1 := { resources with CommonPrefixes := commonPrefixes,
                                   IsTruncated := isTruncated }
      if res1.IsTruncated ∧ isDelimiterSet res1 then
        if actualObjects = [] then .panicked
        else
          let res2 := { res1 with NextMarker := actualObjects.getLastD "" }
          match fetchObjectRecords store bucketName actualObjects with
          | .error e => .errored (.donutError e)
          | .ok results =>
            .ok (List.insertionSort (fun a b : ObjectMetadata => a.Key ≤ b.Key) results, res2)
      else
        match fetchObjectRecords store bucketName actualObjects with
        | .error e => .errored (.donutError e)
        | .ok results =>
          .ok (List.insertionSort (fun a b : ObjectMetadata => a.Key ≤ b.Key) results, res1)

/-- Content-type defaulting of CreateObject: blank becomes
application/octet-stream. -/
def defaultContentType (contentType : String) : String :=
  if trimSpace contentType = "" then "application/octet-stream" else contentType

/-- donutDriver.CreateObject: name checks, content-type defaulting, the
metadata map, expected-MD5 normalization (base64 decode then lowercase
hex re-encode; blank disables it), then the lower PutObject. -/
def CreateObject (store : DonutStore) (bucketName objectName contentType
    expectedMD5Sum : String) (size : Int) : Except DriverError String :=
  if ¬ isValidBucket bucketName ∨ containsChar bucketName '.' then
    .error (.bucketNameInvalid bucketName)
  else if ¬ isValidObjectName objectName ∨ trimSpace objectName = "" then
    .error (.objectNameInvalid objectName)
  else
    let ct := defaultContentType contentType
    let metadata := [("contentType", trimSpace ct), ("contentLength", toString size)]
    if trimSpace expectedMD5Sum ≠ "" then
      match base64Decode (trimSpace expectedMD5Sum) with
      | none => .error .corruptBase64
      | some bs =>
        match store.putObject bucketName objectName (hexEncode bs) metadata with
        | .error e => .error (.donutError e)
        | .ok calcSum => .ok calcSum
    else
      match store.putObject bucketName objectName expectedMD5Sum metadata with
      | .error e => .error (.donutError e)
      | .ok calcSum => .ok calcSum

/-- Modelled from the spec: the digest check of donut.PutObject (not
among the source files). Per the spec, the running MD5 is compared to
the expected MD5 when one is supplied, a mismatch fails with
BadDigest, and the calculated MD5 is returned. calcMD5 is the MD5 the
lower layer computes for the incoming stream. -/
def specPutObject (calcMD5 : String) (expectedMD5 : String) : Except DonutError String :=
  if expectedMD5 ≠ "" ∧ expectedMD5 ≠ calcMD5 then .error .badDigest else .ok calcMD5

/-- Disk container for disk parameters (pkg/storage/donut/disk). -/
structure Disk where
  path : String
  fsInfo : List (String × String)
deriving DecidableEq

/-- Errors raised by disk.New. statfsFailed and statFailed stand for
the raw syscall errors passed through; notADirectory is the ENOTDIR
the source raises itself. -/
inductive DiskError where
  | invalidArgument
  | statfsFailed
  | statFailed
  | notADirectory
  | unsupportedFilesystem (fsType : Int)
deriving DecidableEq

/-- What the operating system reports about a path: whether Statfs and
Stat succeed, whether the entry is a directory, and the filesystem
type tag from Statfs. -/
structure PathInfo where
  statfsOk : Bool
  statOk : Bool
  isDir : Bool
  fsType : Int
deriving DecidableEq

/-- Modelled from the spec: getFSType and its recognized-filesystem
table are not among the source files; the spec says a fixed set of
filesystem type tags is recognized and everything else is refused.
The concrete tags are the common Linux superblock magic numbers. -/
def fsTypeTable : List (Int × String) :=
  [(0xef53, "EXT4"), (0x58465342, "XFS"), (0x6969, "NFS"),
   (0x1021994, "TMPFS"), (0x4d44, "MSDOS"), (0x52654973, "REISERFS")]

/-- Modelled from the spec: map a Statfs type tag to its name, or
UNKNOWN when the tag is outside the recognized set. -/
def getFSType (t : Int) : String :=
  match fsTypeTable.lookup t with
  | some name => name
  | none => "UNKNOWN"

/-- disk.New: reject the empty path, pass through Statfs and Stat
failures, reject non-directories with ENOTDIR, then accept exactly
when the filesystem type is recognized. -/
def DiskNew (diskPath : String) (info : PathInfo) : Except DiskError Disk :=
  if diskPath = "" then .error .invalidArgument
  else if ¬ info.statfsOk then .error .statfsFailed
  else if ¬ info.statOk then .error .statFailed
  else if ¬ info.isDir then .error .notADirectory
  else if getFSType info.fsType ≠ "UNKNOWN" then
    .ok { path := diskPath,
          fsInfo := [("FSType", getFSType info.fsType), ("MountPoint", diskPath)] }
  else .error (.unsupportedFilesystem info.fsType)

/-- A concrete store with one bucket bkt holding one three-byte object
key whose stored MD5 is cafe; bucket listing order is deliberately
unsorted. Used by witnesses and counterexamples. -/
def demoStore : DonutStore where
  listBucketsLower := .ok [("bkb", { Created := 2 }), ("bka", { Created := 1 })]
  makeBucket := fun _ _ => .ok ()
  getBucketMetadataLower := fun b =>
    if b = "bkt" then .ok { Created := 5, ACL := "private" } else .error (.other "nf")
  setBucketMetadataLower := fun _ _ => .ok ()
  getObjectLower := fun b o =>
    if b = "bkt" && o = "key" then .ok ([10, 20, 30], 3) else .error (.other "nf")
  getObjectMetadataLower := fun b o =>
    if b = "bkt" && o = "key" then
      .ok { Created := 7, MD5Sum := "cafe", Size := 3,
            Metadata := [("contentType", "text/plain")] }
    else .error (.other "nf")
  listObjectsLower := fun _ _ _ _ _ => .ok (["key"], [], false)
  putObject := fun _ _ e _ => specPutObject "cafe" e

/-- A store whose lower listing reports a truncated result with no
keys, the shape that makes the NextMarker computation panic. -/
def panicStore : DonutStore where
  listBucketsLower := .ok []
  makeBucket := fun _ _ => .ok ()
  getBucketMetadataLower := fun _ => .error (.other "nf")
  setBucketMetadataLower := fun _ _ => .ok ()
  getObjectLower := fun _ _ => .error (.other "nf")
  getObjectMetadataLower := fun _ _ => .error (.other "nf")
  listObjectsLower := fun _ _ _ _ _ => .ok ([], [], true)
  putObject := fun _ _ e _ => specPutObject "cafe" e

/-! ## Helper lemmas -/

/-- A syntactically malformed integer makes goAtoi yield value 0. -/
theorem goAtoi_of_syntaxError (s : String) (h : isIntSyntax s = false) :
    (goAtoi s).1 = 0 := by
  simp [goAtoi, h]

/-- A query step for a key other than max-keys leaves Maxkeys alone. -/
theorem applyBucketQuery_maxkeys_stable (v : BucketResourcesMetadata)
    (kv : String × String) (h : kv.1 ≠ "max-keys") :
    (applyBucketQuery v kv).Maxkeys = v.Maxkeys := by
  unfold applyBucketQuery
  split_ifs <;> simp_all

/-- Folding query entries none of which is max-keys leaves Maxkeys alone. -/
theorem foldl_bucketQuery_maxkeys_stable :
    ∀ (values : List (String × String)) (acc : BucketResourcesMetadata),
      "max-keys" ∉ values.map Prod.fst →
      (values.foldl applyBucketQuery acc).Maxkeys = acc.Maxkeys := by
  intro values
  induction values with
  | nil => intro acc _; rfl
  | cons kv rest ih =>
    intro acc h
    rw [List.map_cons, List.mem_cons] at h
    push_neg at h
    rw [List.foldl_cons, ih _ h.2, applyBucketQuery_maxkeys_stable _ _ (fun he => h.1 he.symm)]

/-- A query step for a key other than part-number-marker leaves
PartNumberMarker alone. -/
theorem applyObjectQuery_pnm_stable (v : ObjectResourcesMetadata)
    (kv : String × String) (h : kv.1 ≠ "part-number-marker") :
    (applyObjectQuery v kv).PartNumberMarker = v.PartNumberMarker := by
  unfold applyObjectQuery
  split_ifs <;> simp_all

/-- Folding query entries none of which is part-number-marker leaves
PartNumberMarker alone. -/
theorem foldl_objectQuery_pnm_stable :
    ∀ (values : List (String × String)) (acc : ObjectResourcesMetadata),
      "part-number-marker" ∉ values.map Prod.fst →
      (values.foldl applyObjectQuery acc).PartNumberMarker = acc.PartNumberMarker := by
  intro values
  induction values with
  | nil => intro acc _; rfl
  | cons kv rest ih =>
    intro acc h
    rw [List.map_cons, List.mem_cons] at h
    push_neg at h
    rw [List.foldl_cons, ih _ h.2, applyObjectQuery_pnm_stable _ _ (fun he => h.1 he.symm)]

/-- A query step for a key other than max-parts leaves MaxParts alone. -/
theorem applyObjectQuery_maxparts_stable (v : ObjectResourcesMetadata)
    (kv : String × String) (h : kv.1 ≠ "max-parts") :
    (applyObjectQuery v kv).MaxParts = v.MaxParts := by
  unfold applyObjectQuery
  split_ifs <;> simp_all

/-- Folding query entries none of which is max-parts leaves MaxParts
alone. -/
theorem foldl_objectQuery_maxparts_stable :
    ∀ (values : List (String × String)) (acc : ObjectResourcesMetadata),
      "max-parts" ∉ values.map Prod.fst →
      (values.foldl applyObjectQuery acc).MaxParts = acc.MaxParts := by
  intro values
  induction values with
  | nil => intro acc _; rfl
  | cons kv rest ih =>
    intro acc h
    rw [List.map_cons, List.mem_cons] at h
    push_neg at h
    rw [List.foldl_cons, ih _ h.2, applyObjectQuery_maxparts_stable _ _ (fun he => h.1 he.symm)]

/-- With distinct query keys, a malformed max-keys entry drives the
folded Maxkeys to 0 whatever the other entries are. -/
theorem foldl_bucketQuery_maxkeys_bad :
    ∀ (values : List (String × String)) (acc : BucketResourcesMetadata) (v : String),
      (values.map Prod.fst).Nodup → ("max-keys", v) ∈ values → isIntSyntax v = false →
      (values.foldl applyBucketQuery acc).Maxkeys = 0 := by
  intro values
  induction values with
  | nil => intro acc v _ hmem; cases hmem
  | cons kv rest ih =>
    intro acc v hnd hmem hbad
    rw [List.map_cons, List.nodup_cons] at hnd
    rw [List.foldl_cons]
    rcases List.mem_cons.mp hmem with heq | hrest
    · have hkey : kv.1 = "max-keys" := by rw [← heq]
      have hrest2 : "max-keys" ∉ rest.map Prod.fst := hkey ▸ hnd.1
      rw [foldl_bucketQuery_maxkeys_stable rest _ hrest2, ← heq]
      simp [applyBucketQuery, goAtoi_of_syntaxError v hbad]
    · exact ih _ v hnd.2 hrest hbad

/-- With distinct query keys, a malformed part-number-marker entry
drives the folded PartNumberMarker to 0. -/
theorem foldl_objectQuery_pnm_bad :
    ∀ (values : List (String × String)) (acc : ObjectResourcesMetadata) (v : String),
      (values.map Prod.fst).Nodup → ("part-number-marker", v) ∈ values →
      isIntSyntax v = false →
      (values.foldl applyObjectQuery acc).PartNumberMarker = 0 := by
  intro values
  induction values with
  | nil => intro acc v _ hmem; cases hmem
  | cons kv rest ih =>
    intro acc v hnd hmem hbad
    rw [List.map_cons, List.nodup_cons] at hnd
    rw [List.foldl_cons]
    rcases List.mem_cons.mp hmem with heq | hrest
    · have hkey : kv.1 = "part-number-marker" := by rw [← heq]
      have hrest2 : "part-number-marker" ∉ rest.map Prod.fst := hkey ▸ hnd.1
      rw [foldl_objectQuery_pnm_stable rest _ hrest2, ← heq]
      simp [applyObjectQuery, goAtoi_of_syntaxError v hbad]
    · exact ih _ v hnd.2 hrest hbad

/-- With distinct query keys, a malformed max-parts entry drives the
folded MaxParts to 0. -/
theorem foldl_objectQuery_maxparts_bad :
    ∀ (values : List (String × String)) (acc : ObjectResourcesMetadata) (v : String),
      (values.map Prod.fst).Nodup → ("max-parts", v) ∈ values → isIntSyntax v = false →
      (values.foldl applyObjectQuery acc).MaxParts = 0 := by
  intro values
  induction values with
  | nil => intro acc v _ hmem; cases hmem
  | cons kv rest ih =>
    intro acc v hnd hmem hbad
    rw [List.map_cons, List.nodup_cons] at hnd
    rw [List.foldl_cons]
    rcases List.mem_cons.mp hmem with heq | hrest
    · have hkey : kv.1 = "max-parts" := by rw [← heq]
      have hrest2 : "max-parts" ∉ rest.map Prod.fst := hkey ▸ hnd.1
      rw [foldl_objectQuery_maxparts_stable rest _ hrest2, ← heq]
      simp [applyObjectQuery, goAtoi_of_syntaxError v hbad]
    · exact ih _ v hnd.2 hrest hbad

/-! ## Claim theorems -/

/-- Claim C3 (code divergence witness): isRequestBucketACL examines
only the first key the map iteration yields, so the query set
containing foo and acl, iterated with foo first, answers false even
though an acl parameter is present. The claim (and the source's own
comment, check if req query values have acl) require true for every
iteration order. -/
theorem isRequestBucketACL_misses_acl :
    isRequestBucketACL ["foo", "acl"] = false ∧ "acl" ∈ ["foo", "acl"] := by
  decide

/-- Claim C10: a present but syntactically malformed max-keys (bucket
queries), part-number-marker or max-parts (object queries) entry is
recorded as the value 0; the parsers return bare records, so no parse
error can be surfaced. Query keys are distinct because url.Values is
a map. -/
theorem queryResources_malformed_int_is_zero :
    (∀ (values : List (String × String)) (v : String),
        (values.map Prod.fst).Nodup → ("max-keys", v) ∈ values → isIntSyntax v = false →
        (getBucketResources values).Maxkeys = 0)
    ∧ (∀ (values : List (String × String)) (v : String),
        (values.map Prod.fst).Nodup → ("part-number-marker", v) ∈ values →
        isIntSyntax v = false →
        (getObjectResources values).PartNumberMarker = 0)
    ∧ (∀ (values : List (String × String)) (v : String),
        (values.map Prod.fst).Nodup → ("max-parts", v) ∈ values → isIntSyntax v = false →
        (getObjectResources values).MaxParts = 0) :=
  ⟨fun values v hnd hmem hbad => foldl_bucketQuery_maxkeys_bad values {} v hnd hmem hbad,
   fun values v hnd hmem hbad => foldl_objectQuery_pnm_bad values {} v hnd hmem hbad,
   fun values v hnd hmem hbad => foldl_objectQuery_maxparts_bad values {} v hnd hmem hbad⟩

/-- Claim C10 witness: concrete malformed query values. -/
theorem queryResources_malformed_int_is_zero_witness :
    (getBucketResources [("delimiter", "/"), ("max-keys", "12abc")]).Maxkeys = 0
    ∧ (getObjectResources [("part-number-marker", "")]).PartNumberMarker = 0
    ∧ (getObjectResources [("uploadId", "u1"), ("max-parts", "+")]).MaxParts = 0 :=
  ⟨queryResources_malformed_int_is_zero.1 [("delimiter", "/"), ("max-keys", "12abc")]
      "12abc" (by decide) (by decide) (by decide),
   queryResources_malformed_int_is_zero.2.1 [("part-number-marker", "")] ""
      (by decide) (by decide) (by decide),
   queryResources_malformed_int_is_zero.2.2 [("uploadId", "u1"), ("max-parts", "+")] "+"
      (by decide) (by decide) (by decide)⟩

/-- Claim C8: disk.New rejects the empty path with InvalidArgument,
rejects an existing non-directory with the not-a-directory error,
rejects an unrecognized filesystem with UnsupportedFilesystem, and
succeeds exactly when the path is non-empty, both stat calls succeed,
the entry is a directory and the filesystem type is recognized. -/
theorem DiskNew_spec :
    ∀ (diskPath : String) (info : PathInfo),
      (diskPath = "" → DiskNew diskPath info = .error .invalidArgument)
      ∧ (diskPath ≠ "" → info.statfsOk = true → info.statOk = true → info.isDir = false →
          DiskNew diskPath info = .error .notADirectory)
      ∧ (diskPath ≠ "" → info.statfsOk = true → info.statOk = true → info.isDir = true →
          getFSType info.fsType = "UNKNOWN" →
          DiskNew diskPath info = .error (.unsupportedFilesystem info.fsType))
      ∧ ((∃ d, DiskNew diskPath info = .ok d) ↔
          (diskPath ≠ "" ∧ info.statfsOk = true ∧ info.statOk = true ∧ info.isDir = true ∧
           getFSType info.fsType ≠ "UNKNOWN")) := by
  intro diskPath info
  refine ⟨fun h => by simp [DiskNew, h], fun h1 h2 h3 h4 => ?_, fun h1 h2 h3 h4 h5 => ?_, ?_⟩
  · simp [DiskNew, h1, h2, h3, h4]
  · simp [DiskNew, h1, h2, h3, h4, h5]
  · constructor
    · rintro ⟨d, hd⟩
      unfold DiskNew at hd
      split_ifs at hd
      simp_all
    · rintro ⟨h1, h2, h3, h4, h5⟩
      refine ⟨⟨diskPath, [("FSType", getFSType info.fsType), ("MountPoint", diskPath)]⟩, ?_⟩
      simp [DiskNew, h1, h2, h3, h4, h5]

/-- Claim C8 witness: the four outcomes at concrete paths, with the
ext4 magic recognized and the tag 42 refused. -/
theorem DiskNew_spec_witness :
    DiskNew "" ⟨true, true, true, 0xef53⟩ = .error .invalidArgument
    ∧ DiskNew "/mnt/a" ⟨true, true, false, 0xef53⟩ = .error .notADirectory
    ∧ DiskNew "/mnt/a" ⟨true, true, true, 42⟩ = .error (.unsupportedFilesystem 42)
    ∧ (∃ d, DiskNew "/mnt/a" ⟨true, true, true, 0xef53⟩ = .ok d) :=
  ⟨(DiskNew_spec "" ⟨true, true, true, 0xef53⟩).1 rfl,
   (DiskNew_spec "/mnt/a" ⟨true, true, false, 0xef53⟩).2.1 (by decide) rfl rfl rfl,
   (DiskNew_spec "/mnt/a" ⟨true, true, true, 42⟩).2.2.1 (by decide) rfl rfl rfl (by decide),
   (DiskNew_spec "/mnt/a" ⟨true, true, true, 0xef53⟩).2.2.2.mpr
     ⟨by decide, rfl, rfl, rfl, by decide⟩⟩

instance : IsTotal BucketMetadata (fun a b => a.Name ≤ b.Name) :=
  ⟨fun a b => le_total a.Name b.Name⟩

instance : IsTrans BucketMetadata (fun a b => a.Name ≤ b.Name) :=
  ⟨fun _ _ _ h1 h2 => le_trans h1 h2⟩

instance : IsTotal ObjectMetadata (fun a b => a.Key ≤ b.Key) :=
  ⟨fun a b => le_total a.Key b.Key⟩

instance : IsTrans ObjectMetadata (fun a b => a.Key ≤ b.Key) :=
  ⟨fun _ _ _ h1 h2 => le_trans h1 h2⟩

/-- Claim C7: whatever order the lower bucket map is iterated in,
ListBuckets succeeds with exactly the lower records (name and creation
time) arranged ascending by bucket name. -/
theorem ListBuckets_sorted :
    ∀ (store : DonutStore) (buckets : List (String × DonutBucketMetadata)),
      store.listBucketsLower = .ok buckets →
      ∃ results, ListBuckets store = .ok results
        ∧ results.Pairwise (fun a b => a.Name ≤ b.Name)
        ∧ results.Perm (buckets.map (fun p => { Name := p.1, Created := p.2.Created })) := by
  intro store buckets h
  refine ⟨_, by rw [ListBuckets, h], ?_, List.perm_insertionSort _ _⟩
  exact List.sorted_insertionSort (fun a b : BucketMetadata => a.Name ≤ b.Name) _

/-- Claim C7 witness: a store listing two buckets out of order. -/
theorem ListBuckets_sorted_witness :
    ∃ results, ListBuckets demoStore = .ok results
      ∧ results.Pairwise (fun a b : BucketMetadata => a.Name ≤ b.Name)
      ∧ results.Perm ([("bkb", ⟨2, ""⟩), ("bka", ⟨1, ""⟩)].map
          (fun p : String × DonutBucketMetadata => { Name := p.1, Created := p.2.Created })) :=
  ListBuckets_sorted demoStore [("bkb", ⟨2, ""⟩), ("bka", ⟨1, ""⟩)] rfl

/-- Every record produced by the ListObjects metadata loop stems from a
successful lower metadata fetch for its key and copies exactly the
creation time and size (all other fields keep their zero values). -/
theorem fetchObjectRecords_mem :
    ∀ (store : DonutStore) (bucketName : String) (objs : List String)
      (results : List ObjectMetadata) (r : ObjectMetadata),
      fetchObjectRecords store bucketName objs = .ok results → r ∈ results →
      ∃ m, store.getObjectMetadataLower bucketName r.Key = .ok m
        ∧ r = { Key := r.Key, Created := m.Created, Size := m.Size } := by
  intro store bucketName objs
  induction objs with
  | nil =>
    intro results r h hr
    rw [fetchObjectRecords] at h
    injection h with h
    subst h
    cases hr
  | cons o rest ih =>
    intro results r h hr
    rw [fetchObjectRecords] at h
    cases hm : store.getObjectMetadataLower bucketName o with
    | error e => rw [hm] at h; exact Except.noConfusion h
    | ok m =>
      rw [hm] at h
      cases hf : fetchObjectRecords store bucketName rest with
      | error e => rw [hf] at h; exact Except.noConfusion h
      | ok tl =>
        rw [hf] at h
        injection h with h
        subst h
        rcases List.mem_cons.mp hr with heq | htl
        · subst heq
          exact ⟨m, hm, rfl⟩
        · exact ih tl r hf htl

/-- Claim C9: given a successful lower listing, ListObjects panics if
and only if that listing is truncated, a delimiter is set and the key
list is empty (the NextMarker computation indexes the last slice
element); under the complementary precondition it is panic-free. -/
theorem ListObjects_panicked_iff :
    ∀ (store : DonutStore) (bucketName : String) (res : BucketResourcesMetadata)
      (objs cps : List String) (trunc : Bool),
      isValidBucket bucketName = true → containsChar bucketName '.' = false →
      store.listObjectsLower bucketName res.prefixStr res.Marker res.Delimiter
        res.Maxkeys = .ok (objs, cps, trunc) →
      (ListObjects store bucketName res = .panicked ↔
        (trunc = true ∧ res.Delimiter ≠ "" ∧ objs = [])) := by
  intro store bucketName res objs cps trunc hvb hdot hlow
  unfold ListObjects
  rw [if_neg (by simp [hvb, hdot]), if_neg (by simp [isValidObjectName]), hlow]
  simp only [isDelimiterSet]
  by_cases hc : trunc = true ∧ res.Delimiter ≠ ""
  · rw [if_pos (by simpa using hc)]
    by_cases he : objs = []
    · rw [if_pos he]
      simp [hc, he]
    · rw [if_neg he]
      cases hf : fetchObjectRecords store bucketName objs <;> simp [he]
  · rw [if_neg (by simpa using hc)]
    have hrhs : ¬(trunc = true ∧ res.Delimiter ≠ "" ∧ objs = []) := by
      intro hx
      exact hc ⟨hx.1, hx.2.1⟩
    cases hf : fetchObjectRecords store bucketName objs <;> simp [hrhs]

/-- Claim C9 witness: a lower layer answering an empty truncated
listing under a delimiter makes the facade panic. -/
theorem ListObjects_panicked_iff_witness :
    ListObjects panicStore "bkt" { Delimiter := "/" } = .panicked :=
  (ListObjects_panicked_iff panicStore "bkt" { Delimiter := "/" } [] [] true
    (by decide) (by decide) rfl).mpr ⟨rfl, by decide, rfl⟩

/-- Claim C4 (amended): every record ListObjects emits carries the
creation time and size of the lower metadata for its key; the MD5
digest, although present in the fetched lower metadata, is not copied
and the record's Md5 field stays empty (as do Bucket and ContentType). -/
theorem ListObjects_record_fields :
    ∀ (store : DonutStore) (bucketName : String) (res : BucketResourcesMetadata)
      (results : List ObjectMetadata) (res2 : BucketResourcesMetadata)
      (r : ObjectMetadata),
      ListObjects store bucketName res = .ok (results, res2) → r ∈ results →
      ∃ m, store.getObjectMetadataLower bucketName r.Key = .ok m
        ∧ r.Created = m.Created ∧ r.Size = m.Size
        ∧ r.Md5 = "" ∧ r.ContentType = "" ∧ r.Bucket = "" := by
  intro store bucketName res results res2 r h hr
  unfold ListObjects at h
  dsimp only at h
  repeat' split at h
  any_goals exact GoResult.noConfusion h
  all_goals {
    injection h with h
    injection h with h1 h2
    subst h1
    obtain ⟨m, hm, hre⟩ := fetchObjectRecords_mem store bucketName _ _ r
      (by assumption) ((List.mem_insertionSort _ ).mp hr)
    exact ⟨m, hm, by rw [hre], by rw [hre], by rw [hre], by rw [hre], by rw [hre]⟩
  }

/-- Claim C4 witness: the emitted record for key copies size 3 and
creation time 7 from the lower metadata, with an empty Md5 field. -/
theorem ListObjects_record_fields_witness :
    ∃ m, demoStore.getObjectMetadataLower "bkt"
        ({ Key := "key", Created := 7, Size := 3 } : ObjectMetadata).Key = .ok m
      ∧ ({ Key := "key", Created := 7, Size := 3 } : ObjectMetadata).Created = m.Created
      ∧ ({ Key := "key", Created := 7, Size := 3 } : ObjectMetadata).Size = m.Size
      ∧ ({ Key := "key", Created := 7, Size := 3 } : ObjectMetadata).Md5 = ""
      ∧ ({ Key := "key", Created := 7, Size := 3 } : ObjectMetadata).ContentType = ""
      ∧ ({ Key := "key", Created := 7, Size := 3 } : ObjectMetadata).Bucket = "" :=
  ListObjects_record_fields demoStore "bkt" {}
    [{ Key := "key", Created := 7, Size := 3 }]
    { CommonPrefixes := [], IsTruncated := false }
    { Key := "key", Created := 7, Size := 3 } (by decide) (by decide)

/-- Claim C4 counterexample: the lower metadata for key records the
MD5 cafe, yet the record ListObjects returns for it has an empty Md5
field, so the listing does not carry the stored MD5 digest. -/
theorem ListObjects_drops_md5 :
    ListObjects demoStore "bkt" {} =
      .ok ([{ Key := "key", Created := 7, Size := 3 }],
           { CommonPrefixes := [], IsTruncated := false })
    ∧ demoStore.getObjectMetadataLower "bkt" "key" =
        .ok { Created := 7, MD5Sum := "cafe", Size := 3,
              Metadata := [("contentType", "text/plain")] }
    ∧ ({ Key := "key", Created := 7, Size := 3 } : ObjectMetadata).Md5 ≠ "cafe" := by
  decide

/-- Copying exactly the bytes a reader holds drains it without error. -/
theorem copyN_all (data : List Nat) (size : Int) (hsz : (data.length : Int) = size) :
    copyN data size = (data, [], false) := by
  unfold copyN
  by_cases hz : size ≤ 0
  · have hd : data = [] := List.eq_nil_of_length_eq_zero (by omega)
    subst hd
    simp [hz]
  · rw [if_neg hz]
    have ht : size.toNat = data.length := by omega
    simp [ht]

/-- Copying zero bytes does nothing and is no error. -/
theorem copyN_zero (src : List Nat) : copyN src 0 = ([], src, false) := by
  simp [copyN]

/-- Copying a positive count from a drained reader reports an error. -/
theorem copyN_empty_pos (n : Int) (hn : 0 < n) : copyN [] n = ([], [], true) := by
  unfold copyN
  rw [if_neg (by omega)]
  have h : 0 < n.toNat := by omega
  simp [h]

/-- An integer already inside the int64 range is its own wrap. -/
theorem wrapInt64_eq_self (n : Int) (h1 : -(2 ^ 63) ≤ n) (h2 : n ≤ 2 ^ 63 - 1) :
    wrapInt64 n = n := by
  unfold wrapInt64
  omega

/-- Claim C1 (amended): on an existing object (the lower fetch
succeeds and the declared size matches the stream), GetPartialObject
fails with InvalidRange exactly when start is negative, start exceeds
the size, or the int64-wrapped value of start + length - 1 exceeds the
size (the source computes the sum in wrapping int64 arithmetic);
otherwise the range check passes and the call proceeds to streaming. -/
theorem GetPartialObject_invalidRange_iff :
    ∀ (store : DonutStore) (b o : String) (start length : Int)
      (data : List Nat) (size : Int),
      isValidBucket b = true → containsChar b '.' = false → trimSpace o ≠ "" →
      store.getObjectLower b o = .ok (data, size) → (data.length : Int) = size →
      (GetPartialObject store b o start length = .error (.invalidRange start length) ↔
        (start < 0 ∨ start > size ∨ wrapInt64 (start + length - 1) > size)) := by
  intro store b o start length data size hvb hdot hno hlow hsz
  unfold GetPartialObject
  rw [if_neg (by simp [hvb, hdot]), if_neg (by simp [isValidObjectName, hno])]
  by_cases hs : start < 0
  · rw [if_pos hs]
    simp [hs]
  · rw [if_neg hs]
    simp only [hlow]
    by_cases hr : start > size ∨ wrapInt64 (start + length - 1) > size
    · rw [if_pos hr]
      simp [hs, hr]
    · rw [if_neg hr]
      constructor
      · intro hcontra
        split_ifs at hcontra <;> simp_all
      · intro hcontra
        exact absurd (hcontra.resolve_left hs) hr

/-- Claim C1 witness: a negative start on the existing three-byte
object is rejected with InvalidRange. -/
theorem GetPartialObject_invalidRange_iff_witness :
    GetPartialObject demoStore "bkt" "key" (-1) 2 = .error (.invalidRange (-1) 2) :=
  (GetPartialObject_invalidRange_iff demoStore "bkt" "key" (-1) 2 [10, 20, 30] 3
    (by decide) (by decide) (by decide) rfl (by decide)).mpr (Or.inl (by decide))

/-- Claim C1 counterexample: on the three-byte object, start = 2 with
length = 2^63 - 1 satisfies the claim's mathematical condition
start + length - 1 > size, yet the Go int64 sum wraps to -2^63, the
range check passes, and the call fails with the end-of-file I/O error
from CopyN instead of InvalidRange. -/
theorem GetPartialObject_overflow_not_invalidRange :
    GetPartialObject demoStore "bkt" "key" 2 (2 ^ 63 - 1) = .error .ioEOF
    ∧ (2 : Int) + (2 ^ 63 - 1) - 1 > 3
    ∧ wrapInt64 ((2 : Int) + (2 ^ 63 - 1) - 1) = -(2 ^ 63)
    ∧ (Except.error DriverError.ioEOF : Except DriverError (List Nat)) ≠
        .error (.invalidRange 2 (2 ^ 63 - 1)) := by
  decide

/-- Claim C2 (amended): on an existing object of int64 size size, a
range read at start = size succeeds with 0 bytes when length = 0 and
fails with InvalidRange when length is at least 2 and the int64 sum
start + length - 1 does not overflow; with length = 1 the range check
start + length - 1 > size does not fire, so the call passes the check
and instead fails with an end-of-file I/O error while streaming from
the drained reader. -/
theorem GetPartialObject_at_size :
    ∀ (store : DonutStore) (b o : String) (data : List Nat) (size : Int),
      isValidBucket b = true → containsChar b '.' = false → trimSpace o ≠ "" →
      store.getObjectLower b o = .ok (data, size) → (data.length : Int) = size →
      size ≤ 2 ^ 63 - 1 →
      (GetPartialObject store b o size 0 = .ok []
       ∧ (∀ length : Int, 2 ≤ length → size + length - 1 ≤ 2 ^ 63 - 1 →
           GetPartialObject store b o size length = .error (.invalidRange size length))
       ∧ GetPartialObject store b o size 1 = .error .ioEOF) := by
  intro store b o data size hvb hdot hno hlow hsz hs64
  have hs0 : (0 : Int) ≤ size := by omega
  refine ⟨?_, fun length hlen hover => ?_, ?_⟩
  · unfold GetPartialObject
    rw [if_neg (by simp [hvb, hdot]), if_neg (by simp [isValidObjectName, hno]),
      if_neg (by omega)]
    simp only [hlow]
    rw [if_neg (by
      have hw := wrapInt64_eq_self (size + 0 - 1) (by omega) (by omega)
      omega)]
    rw [copyN_all data size hsz]
    simp [copyN_zero]
  · unfold GetPartialObject
    rw [if_neg (by simp [hvb, hdot]), if_neg (by simp [isValidObjectName, hno]),
      if_neg (by omega)]
    simp only [hlow]
    rw [if_pos (Or.inr (by
      have hw := wrapInt64_eq_self (size + length - 1) (by omega) (by omega)
      omega))]
  · unfold GetPartialObject
    rw [if_neg (by simp [hvb, hdot]), if_neg (by simp [isValidObjectName, hno]),
      if_neg (by omega)]
    simp only [hlow]
    rw [if_neg (by
      have hw := wrapInt64_eq_self (size + 1 - 1) (by omega) (by omega)
      omega)]
    rw [copyN_all data size hsz]
    simp [copyN_empty_pos 1 (by omega)]

/-- Claim C2 witness: the three outcomes on the three-byte object. -/
theorem GetPartialObject_at_size_witness :
    GetPartialObject demoStore "bkt" "key" 3 0 = .ok []
    ∧ GetPartialObject demoStore "bkt" "key" 3 2 = .error (.invalidRange 3 2)
    ∧ GetPartialObject demoStore "bkt" "key" 3 1 = .error .ioEOF :=
  have h := GetPartialObject_at_size demoStore "bkt" "key" [10, 20, 30] 3
    (by decide) (by decide) (by decide) rfl (by decide) (by decide)
  ⟨h.1, h.2.1 2 (by decide) (by decide), h.2.2⟩

/-- Claim C2 counterexample: at start = size = 3 with length = 1 the
call does not fail with InvalidRange as claimed; it fails with the
end-of-file I/O error from the final CopyN. -/
theorem GetPartialObject_at_size_length_one :
    GetPartialObject demoStore "bkt" "key" 3 1 = .error .ioEOF
    ∧ (Except.error DriverError.ioEOF : Except DriverError (List Nat)) ≠
        .error (.invalidRange 3 1) := by
  decide

/-- Claim C6 (amended): for every store, a bucket name containing a
dot is rejected with BucketNameInvalid by all eight name-taking facade
operations before any storage access (the store is arbitrary and never
consulted), with the one proviso the source imposes: CreateBucket
validates the ACL first, so its rejection with BucketNameInvalid holds
for valid ACLs, an invalid ACL being rejected with InvalidACL instead
(still before any storage access). -/
theorem dotted_bucket_bucketNameInvalid :
    ∀ (store : DonutStore) (bucketName : String),
      containsChar bucketName '.' = true →
      ((∀ acl, isValidBucketACL acl = true →
          CreateBucket store bucketName acl = .error (.bucketNameInvalid bucketName))
      ∧ GetBucketMetadata store bucketName = .error (.bucketNameInvalid bucketName)
      ∧ (∀ acl, SetBucketMetadata store bucketName acl =
          .error (.bucketNameInvalid bucketName))
      ∧ (∀ o, GetObject store bucketName o = .error (.bucketNameInvalid bucketName))
      ∧ (∀ o start length, GetPartialObject store bucketName o start length =
          .error (.bucketNameInvalid bucketName))
      ∧ (∀ o, GetObjectMetadata store bucketName o =
          .error (.bucketNameInvalid bucketName))
      ∧ (∀ res, ListObjects store bucketName res =
          .errored (.bucketNameInvalid bucketName))
      ∧ (∀ o ct md5 size, CreateObject store bucketName o ct md5 size =
          .error (.bucketNameInvalid bucketName))) := by
  intro store bucketName hdot
  refine ⟨fun acl hacl => ?_, ?_, fun acl => ?_, fun o => ?_,
    fun o start length => ?_, fun o => ?_, fun res => ?_, fun o ct md5 size => ?_⟩
  · unfold CreateBucket
    rw [if_neg (by simp [hacl]), if_neg (by simp [hdot])]
  · unfold GetBucketMetadata
    rw [if_pos (Or.inr hdot)]
  · unfold SetBucketMetadata
    rw [if_pos (Or.inr hdot)]
  · unfold GetObject
    rw [if_pos (Or.inr hdot)]
  · unfold GetPartialObject
    rw [if_pos (Or.inr hdot)]
  · unfold GetObjectMetadata
    rw [if_pos (Or.inr hdot)]
  · unfold ListObjects
    rw [if_pos (Or.inr hdot)]
  · unfold CreateObject
    rw [if_pos (Or.inr hdot)]

/-- Claim C6 witness: all eight operations on the dotted name a.b. -/
theorem dotted_bucket_bucketNameInvalid_witness :
    CreateBucket demoStore "a.b" "private" = .error (.bucketNameInvalid "a.b")
    ∧ GetBucketMetadata demoStore "a.b" = .error (.bucketNameInvalid "a.b")
    ∧ SetBucketMetadata demoStore "a.b" "" = .error (.bucketNameInvalid "a.b")
    ∧ GetObject demoStore "a.b" "key" = .error (.bucketNameInvalid "a.b")
    ∧ GetPartialObject demoStore "a.b" "key" 0 1 = .error (.bucketNameInvalid "a.b")
    ∧ GetObjectMetadata demoStore "a.b" "key" = .error (.bucketNameInvalid "a.b")
    ∧ ListObjects demoStore "a.b" {} = .errored (.bucketNameInvalid "a.b")
    ∧ CreateObject demoStore "a.b" "key" "" "" 1 = .error (.bucketNameInvalid "a.b") :=
  have h := dotted_bucket_bucketNameInvalid demoStore "a.b" (by decide)
  ⟨h.1 "private" (by decide), h.2.1, h.2.2.1 "", h.2.2.2.1 "key",
   h.2.2.2.2.1 "key" 0 1, h.2.2.2.2.2.1 "key", h.2.2.2.2.2.2.1 {},
   h.2.2.2.2.2.2.2 "key" "" "" 1⟩

/-- Claim C6 counterexample: CreateBucket checks the ACL before the
bucket name, so the dotted name a.b together with an invalid ACL is
rejected with InvalidACL, not BucketNameInvalid. -/
theorem CreateBucket_dotted_invalid_acl :
    CreateBucket demoStore "a.b" "bogus" = .error (.invalidACL "bogus")
    ∧ DriverError.invalidACL "bogus" ≠ DriverError.bucketNameInvalid "a.b" := by
  decide

/-- Every hex digit character is drawn from the lowercase hex table. -/
theorem hexDigit_mem (n : Nat) : hexDigit n ∈ hexTable := by
  unfold hexDigit
  have h : n % 16 < 16 := Nat.mod_lt _ (by norm_num)
  generalize n % 16 = r at h ⊢
  interval_cases r <;> decide

/-- Every character of a hex encoding is drawn from the lowercase hex
table. -/
theorem hexChars_mem (bs : List Nat) : ∀ c ∈ hexChars bs, c ∈ hexTable := by
  induction bs with
  | nil => intro c hc; cases hc
  | cons b rest ih =>
    intro c hc
    rcases List.mem_cons.mp hc with rfl | hc2
    · exact hexDigit_mem _
    · rcases List.mem_cons.mp hc2 with rfl | hc3
      · exact hexDigit_mem _
      · exact ih c hc3

/-- Claim C5 (amended): in CreateObject with valid bucket and key, a
blank content-type behaves exactly as application/octet-stream; an
expected MD5 that is non-blank (non-empty after trimming whitespace)
and base64-decodes to bs reaches the lower PutObject re-encoded as
hexEncode bs, whose characters all come from the lowercase hex
alphabet; a blank expected MD5 (empty or whitespace-only) skips the
base64 normalization entirely and is passed to PutObject as the raw
original string, so a whitespace-only value still reaches the digest
comparison undecoded; and a literally empty expected MD5 disables the
digest check, the call succeeding with the calculated MD5 whatever it
is (no BadDigest can be raised). The digest check itself is the
spec-modelled specPutObject. -/
theorem CreateObject_normalization :
    (∀ (store : DonutStore) (b o ct md5 : String) (size : Int),
        trimSpace ct = "" →
        CreateObject store b o ct md5 size =
          CreateObject store b o "application/octet-stream" md5 size)
    ∧ (∀ (store : DonutStore) (b o ct md5 : String) (size : Int) (bs : List Nat),
        isValidBucket b = true → containsChar b '.' = false → trimSpace o ≠ "" →
        trimSpace md5 ≠ "" → base64Decode (trimSpace md5) = some bs →
        (CreateObject store b o ct md5 size =
          (match store.putObject b o (hexEncode bs)
              [("contentType", trimSpace (defaultContentType ct)),
               ("contentLength", toString size)] with
           | .error e => .error (.donutError e)
           | .ok calcSum => .ok calcSum)
         ∧ ∀ c ∈ (hexEncode bs).data, c ∈ hexTable))
    ∧ (∀ (store : DonutStore) (b o ct md5 : String) (size : Int),
        isValidBucket b = true → containsChar b '.' = false → trimSpace o ≠ "" →
        trimSpace md5 = "" →
        CreateObject store b o ct md5 size =
          (match store.putObject b o md5
              [("contentType", trimSpace (defaultContentType ct)),
               ("contentLength", toString size)] with
           | .error e => .error (.donutError e)
           | .ok calcSum => .ok calcSum))
    ∧ (∀ (store : DonutStore) (b o ct : String) (size : Int) (calcMD5 : String),
        isValidBucket b = true → containsChar b '.' = false → trimSpace o ≠ "" →
        store.putObject = (fun _ _ e _ => specPutObject calcMD5 e) →
        CreateObject store b o ct "" size = .ok calcMD5) := by
  refine ⟨?_, ?_, ?_, ?_⟩
  · intro store b o ct md5 size hct
    unfold CreateObject
    have h1 : defaultContentType ct = "application/octet-stream" := by
      simp [defaultContentType, hct]
    have h2 : defaultContentType "application/octet-stream" =
        "application/octet-stream" := by decide
    rw [h1, h2]
  · intro store b o ct md5 size bs hvb hdot hno hmd5 hdec
    refine ⟨?_, hexChars_mem bs⟩
    unfold CreateObject
    rw [if_neg (by simp [hvb, hdot]), if_neg (by simp [isValidObjectName, hno]),
      if_pos hmd5]
    simp only [hdec]
  · intro store b o ct md5 size hvb hdot hno htrim
    unfold CreateObject
    rw [if_neg (by simp [hvb, hdot]), if_neg (by simp [isValidObjectName, hno]),
      if_neg (by simp [htrim])]
  · intro store b o ct size calcMD5 hvb hdot hno hput
    unfold CreateObject
    rw [if_neg (by simp [hvb, hdot]), if_neg (by simp [isValidObjectName, hno]),
      if_neg (by decide), hput]
    simp [specPutObject]

/-- Claim C5 witness: blank content-type equals the explicit default;
the base64 digest yv4= reaches PutObject as the lowercase hex cafe;
the whitespace-only expected MD5 reaches PutObject as the raw string;
and an empty expected MD5 always succeeds with the calculated MD5. -/
theorem CreateObject_normalization_witness :
    CreateObject demoStore "bkt" "key" " " "" 3 =
      CreateObject demoStore "bkt" "key" "application/octet-stream" "" 3
    ∧ CreateObject demoStore "bkt" "key" "" "yv4=" 3 =
        (match demoStore.putObject "bkt" "key" (hexEncode [202, 254])
            [("contentType", trimSpace (defaultContentType "")),
             ("contentLength", toString (3 : Int))] with
         | .error e => .error (.donutError e)
         | .ok calcSum => .ok calcSum)
    ∧ CreateObject demoStore "bkt" "key" "" " " 3 =
        (match demoStore.putObject "bkt" "key" " "
            [("contentType", trimSpace (defaultContentType "")),
             ("contentLength", toString (3 : Int))] with
         | .error e => .error (.donutError e)
         | .ok calcSum => .ok calcSum)
    ∧ CreateObject demoStore "bkt" "key" "text/plain" "" 3 = .ok "cafe" :=
  ⟨CreateObject_normalization.1 demoStore "bkt" "key" " " "" 3 (by decide),
   (CreateObject_normalization.2.1 demoStore "bkt" "key" "" "yv4=" 3 [202, 254]
     (by decide) (by decide) (by decide) (by decide) (by decide)).1,
   CreateObject_normalization.2.2.1 demoStore "bkt" "key" "" " " 3
     (by decide) (by decide) (by decide) (by decide),
   CreateObject_normalization.2.2.2 demoStore "bkt" "key" "text/plain" 3 "cafe"
     (by decide) (by decide) (by decide) rfl⟩

/-- Claim C5 counterexample: the expected MD5 consisting of one space
is non-empty, yet CreateObject does not base64-decode it (the decode
would fail, as base64Decode of the space shows); the raw space reaches
the digest comparison and raises BadDigest, so the non-empty value was
compared without being decoded and re-encoded as the claim states. -/
theorem CreateObject_whitespace_md5_not_decoded :
    CreateObject demoStore "bkt" "key" "" " " 3 = .error (.donutError .badDigest)
    ∧ base64Decode " " = none
    ∧ (Except.error (DriverError.donutError DonutError.badDigest) :
        Except DriverError String) ≠ .error .corruptBase64 := by
  decide

end Minio
